import Mathlib

/-!
Verification development for the ai-therapist repository.

The session store (`src/lib/storage.ts`) keeps one JSON file per chat
session in a fixed directory.  We embed the directory as a list of files;
a file whose content fails `JSON.parse` is modelled with `content = none`.
Timestamps (`new Date().toISOString()` / `Date.now()`) are modelled as
natural numbers supplied explicitly by the caller (the clock is an input
of each operation).  Within one storage operation the source calls
`new Date()` for the message timestamp and for `updatedAt` back to back;
we model both reads of the clock as the same instant.
-/

/-- Message author, `'user' | 'assistant'` in `storage.ts`. -/
inductive Role where
  | user
  | assistant
deriving DecidableEq, Repr

/-- `riskLevel: 'low' | 'medium' | 'high'` in `storage.ts`. -/
inductive RiskLevel where
  | low
  | medium
  | high
deriving DecidableEq, Repr

/-- `ChatMessage` of `storage.ts`: role, content, timestamp. -/
structure ChatMessage where
  role : Role
  content : String
  timestamp : Nat
deriving DecidableEq, Repr

/-- The evaluation record stored on a session (`ChatSession['evaluation']`
minus the `undefined` case, which is `Option Evaluation` below). -/
structure Evaluation where
  wellnessScore : Int
  emotionalState : String
  keyConcerns : List String
  riskLevel : RiskLevel
  recommendations : List String
  summary : String
  evaluatedAt : Nat
deriving DecidableEq, Repr

/-- `ChatSession` of `storage.ts`. -/
structure ChatSession where
  id : String
  messages : List ChatMessage
  evaluation : Option Evaluation
  createdAt : Nat
  updatedAt : Nat
deriving DecidableEq, Repr

/-- One file of the storage directory: its name and its parsed content.
`content = none` models a file that exists but whose text `JSON.parse`
rejects (a corrupt record). -/
structure SFile where
  name : String
  content : Option ChatSession
deriving DecidableEq, Repr

/-- The storage directory `data/sessions`, as the list of its files. -/
def Store := List SFile
deriving DecidableEq

/-- `fs.existsSync` / reading a directory entry by name: the first file
with the given name, if any. -/
def findFile (store : Store) (name : String) : Option SFile :=
  List.find? (fun f => f.name == name) store

/-- `getSessionPath` of `storage.ts`: the session's file name
`id ++ ".json"` (the directory prefix is the whole `Store`). -/
def getSessionPath (sessionId : String) : String :=
  sessionId ++ ".json"

/-- `fs.writeFileSync`: overwrite the file with this name if it exists,
otherwise create it. -/
def writeFile : Store → String → ChatSession → Store
  | [], name, s => [⟨name, some s⟩]
  | f :: fs, name, s =>
    if f.name == name then ⟨name, some s⟩ :: fs
    else f :: writeFile fs name s

/-- `getChatSession` of `storage.ts`: `undefined` when the file does not
exist, `undefined` when it exists but cannot be parsed, the parsed
session otherwise. -/
def getChatSession (store : Store) (sessionId : String) : Option ChatSession :=
  match findFile store (getSessionPath sessionId) with
  | none => none
  | some f => f.content

/-- `addMessage` of `storage.ts`: load the session, exit silently when it
is absent, else push the message, refresh `updatedAt` and persist. -/
def addMessage (store : Store) (sessionId : String) (role : Role)
    (content : String) (now : Nat) : Store :=
  match getChatSession store sessionId with
  | none => store
  | some session =>
    writeFile store (getSessionPath sessionId)
      { session with
        messages := session.messages ++ [⟨role, content, now⟩]
        updatedAt := now }

/-- `updateEvaluation` of `storage.ts`: load the session, exit silently
when it is absent, else attach the evaluation and persist.  Note that it
does not touch `updatedAt`. -/
def updateEvaluation (store : Store) (sessionId : String)
    (evaluation : Option Evaluation) : Store :=
  match getChatSession store sessionId with
  | none => store
  | some session =>
    writeFile store (getSessionPath sessionId)
      { session with evaluation := evaluation }

/-- `deleteSession` of `storage.ts`: unlink the file if it exists and
report `true`, else report `false`. -/
def deleteSession (store : Store) (sessionId : String) : Store × Bool :=
  if (findFile store (getSessionPath sessionId)).isSome then
    (List.filter (fun f => f.name != getSessionPath sessionId) store, true)
  else
    (store, false)

/-- The filter `file.endsWith('.json')` of `getAllSessions`: whether the
file name ends in `.json`, as a suffix test on the character list. -/
def isJsonFile (name : String) : Bool :=
  List.isSuffixOf ".json".data name.data

/-- The loop body of `getAllSessions`: read and `JSON.parse` every
`.json` file in order.  A single corrupt record throws, which aborts the
whole loop (`none`); the source catches that outside the loop. -/
def parseAll : List SFile → Option (List ChatSession)
  | [] => some []
  | f :: fs =>
    if isJsonFile f.name then
      match f.content with
      | none => none
      | some s => (parseAll fs).map (fun rest => s :: rest)
    else parseAll fs

/-- `getAllSessions` of `storage.ts`.  The argument is the outcome of
`fs.readdirSync`: `none` when the directory read itself fails.  Any
exception inside the `try` block (directory read or a corrupt record)
lands in the `catch`, which returns `[]`; otherwise the parsed sessions
are sorted by `updatedAt` descending. -/
def getAllSessions (dir : Option Store) : List ChatSession :=
  match dir with
  | none => []
  | some files =>
    match parseAll files with
    | none => []
    | some sessions =>
      List.mergeSort sessions (fun a b => decide (b.updatedAt ≤ a.updatedAt))

/-- Decimal rendering of a natural number, digit character by digit
character: the model of how a JS template literal prints `Date.now()`. -/
def decChar (d : Nat) : Char :=
  if d = 0 then '0' else if d = 1 then '1' else if d = 2 then '2'
  else if d = 3 then '3' else if d = 4 then '4' else if d = 5 then '5'
  else if d = 6 then '6' else if d = 7 then '7' else if d = 8 then '8'
  else '9'

/-- Decimal digit list of `n`, most significant first. -/
def natToDec (n : Nat) : List Char :=
  if _h : n < 10 then [decChar n]
  else natToDec (n / 10) ++ [decChar (n % 10)]
decreasing_by exact Nat.div_lt_self (by omega) (by omega)

/-- The id template of `createChatSession`:
`session_[Date.now()]_[random string]`. -/
def mkSessionId (now : Nat) (rand : String) : String :=
  "session_" ++ String.mk (natToDec now) ++ "_" ++ rand

/-- `createChatSession` of `storage.ts`: build the id from the current
time and the random component, persist the empty session, return the id.
`now` models `Date.now()` and the `new Date().toISOString()` stamps of
the same instant; `rand` models `Math.random().toString(36).substring(2, 9)`. -/
def createChatSession (store : Store) (now : Nat) (rand : String) :
    Store × String :=
  let id := mkSessionId now rand
  let session : ChatSession :=
    { id := id, messages := [], evaluation := none
      createdAt := now, updatedAt := now }
  (writeFile store (getSessionPath id) session, id)

/-! Basic storage lemmas. -/

theorem findFile_writeFile_self (store : Store) (name : String)
    (s : ChatSession) :
    findFile (writeFile store name s) name = some ⟨name, some s⟩ := by
  induction store with
  | nil => simp [writeFile, findFile]
  | cons f fs ih =>
    by_cases h : (f.name == name) = true
    · simp [writeFile, findFile, h]
    · have h' : (f.name == name) = false := by simpa using h
      simp only [writeFile, h', Bool.false_eq_true, if_false, findFile,
        List.find?_cons]
      exact ih

theorem getChatSession_writeFile_self (store : Store) (sessionId : String)
    (s : ChatSession) :
    getChatSession (writeFile store (getSessionPath sessionId) s) sessionId
      = some s := by
  simp [getChatSession, findFile_writeFile_self]

/-!
AI client (`src/lib/gemini.ts`).  The network interaction with the
provider is an oracle: `providerResult` is the outcome of
`model.generateContent(...)` followed by `response.text()` (`Except.error`
when the call throws, carrying its message), and `parse` is the outcome
of `JSON.parse` on the extracted substring (`Except.error` when it
throws).  What the file itself computes — the JSON-substring extraction
and the error mapping of the `try`/`catch` — is embedded exactly.
-/

/-- An opening brace character. -/
def lbrace : Char := '\x7b'

/-- A closing brace character. -/
def rbrace : Char := '\x7d'

/-- The regex `/\x7b[\s\S]*\x7d/` of `evaluateMentalHealth`: the match, if
any, runs from the first opening brace to the last closing brace after
it (the quantifier is greedy and `[\s\S]` matches every character). -/
def extractJson (text : String) : Option String :=
  match List.dropWhile (fun c => c ≠ lbrace) text.data with
  | [] => none
  | c :: rest =>
    match List.dropWhile (fun ch => ch ≠ rbrace) rest.reverse with
    | [] => none
    | r => some (String.mk (c :: r.reverse))

/-- The body of the `try` block of `evaluateMentalHealth`: obtain the
response text, extract the JSON-shaped substring — throwing
`Invalid evaluation format` when there is none — and `JSON.parse` it. -/
def evalTryBody (providerResult : Except String String)
    (parse : String → Except String Evaluation) : Except String Evaluation :=
  match providerResult with
  | .error e => .error e
  | .ok text =>
    match extractJson text with
    | none => .error "Invalid evaluation format"
    | some j => parse j

/-- `evaluateMentalHealth` of `gemini.ts`: every exception of the `try`
body — provider failure, missing JSON substring, `JSON.parse` failure —
is caught by the `catch`, which throws the single generic
`Failed to evaluate conversation` error. -/
def evaluateMentalHealth (providerResult : Except String String)
    (parse : String → Except String Evaluation) : Except String Evaluation :=
  match evalTryBody providerResult parse with
  | .ok v => .ok v
  | .error _ => .error "Failed to evaluate conversation"

/-!
Chat route (`src/app/api/chat/message/route.ts`).
-/

/-- One rendered transcript line,
`msg.role === 'user' ? 'User' : 'Therapist'` plus `: ` plus the content. -/
def renderLine (m : ChatMessage) : String :=
  (match m.role with
   | Role.user => "User: "
   | Role.assistant => "Therapist: ") ++ m.content

/-- The conversation rendered as text, lines joined with a newline
(used both by the route's evaluation step and, in `gemini.ts`, by
`generateTherapyResponse`). -/
def conversationText (msgs : List ChatMessage) : String :=
  String.intercalate "\n" (List.map renderLine msgs)

/-- The projection `msg => ({ role: msg.role, content: msg.content })`
the route applies before calling `generateTherapyResponse`. -/
def projectMsg (m : ChatMessage) : Role × String :=
  (m.role, m.content)

/-- The HTTP outcome of the POST handler. -/
inductive ChatResult where
  /-- 400, `Session ID and message are required`. -/
  | badRequest
  /-- 404, `Session not found`. -/
  | notFound
  /-- 200, `\x7b response \x7d`. -/
  | ok (response : String)
  /-- 500, `Failed to generate response from AI`. -/
  | serverError
deriving DecidableEq, Repr

/-- What a run of the handler produces: the final store, the HTTP result,
and whether the `evaluateMentalHealth` call was reached. -/
structure PostOutcome where
  store : Store
  result : ChatResult
  evalAttempted : Bool
deriving DecidableEq

/-- The POST handler of `/api/chat/message`.

Oracles and clock, in source order of use: `genFn` is
`generateTherapyResponse` applied to the projected history (error = the
call throws); `t1` and `t2` time the two `addMessage` calls; `evalFn` is
`evaluateMentalHealth` applied to the rendered transcript; `evalWriteOk`
says whether the `writeFileSync` inside `updateEvaluation` succeeds — a
throw there propagates to the route's inner `catch` and leaves the file
unchanged; `tE` times `evaluatedAt`.  Each path mirrors the source: the
falsy-field check (400), the existence check (404), the user append, the
re-read, the reply generation with its `catch` (500), the assistant
append, the re-read and every-5th-message evaluation whose failures are
swallowed, and the 200 response. -/
def postMessage (store : Store) (sessionId message : String)
    (genFn : List (Role × String) → Except String String)
    (t1 t2 : Nat)
    (evalFn : String → Except String Evaluation)
    (evalWriteOk : Bool) (tE : Nat) : PostOutcome :=
  if sessionId == "" || message == "" then
    ⟨store, ChatResult.badRequest, false⟩
  else
    match getChatSession store sessionId with
    | none => ⟨store, ChatResult.notFound, false⟩
    | some _ =>
      let store1 := addMessage store sessionId Role.user message t1
      match getChatSession store1 sessionId with
      | none => ⟨store1, ChatResult.notFound, false⟩
      | some updatedSession =>
        match genFn (List.map projectMsg updatedSession.messages) with
        | .error _ => ⟨store1, ChatResult.serverError, false⟩
        | .ok response =>
          let store2 := addMessage store1 sessionId Role.assistant response t2
          match getChatSession store2 sessionId with
          | none => ⟨store2, ChatResult.ok response, false⟩
          | some finalSession =>
            if 5 ≤ finalSession.messages.length ∧
                finalSession.messages.length % 5 = 0 then
              match evalFn (conversationText finalSession.messages) with
              | .error _ => ⟨store2, ChatResult.ok response, true⟩
              | .ok evaluation =>
                if evalWriteOk then
                  ⟨updateEvaluation store2 sessionId
                      (some { evaluation with evaluatedAt := tE }),
                    ChatResult.ok response, true⟩
                else ⟨store2, ChatResult.ok response, true⟩
            else ⟨store2, ChatResult.ok response, false⟩

/-- The GET handler of `/api/admin/sessions/[id]`: 404 when the session
is absent, the full session otherwise. -/
def adminGetSession (store : Store) (sessionId : String) :
    Option ChatSession :=
  getChatSession store sessionId

theorem addMessage_eq (store : Store) (sessionId : String) (role : Role)
    (content : String) (now : Nat) (s : ChatSession)
    (h : getChatSession store sessionId = some s) :
    addMessage store sessionId role content now =
      writeFile store (getSessionPath sessionId)
        { s with
          messages := s.messages ++ [⟨role, content, now⟩]
          updatedAt := now } := by
  simp [addMessage, h]

theorem updateEvaluation_eq (store : Store) (sessionId : String)
    (evaluation : Option Evaluation) (s : ChatSession)
    (h : getChatSession store sessionId = some s) :
    updateEvaluation store sessionId evaluation =
      writeFile store (getSessionPath sessionId)
        { s with evaluation := evaluation } := by
  simp [updateEvaluation, h]

theorem getChatSession_addMessage_self (store : Store) (sessionId : String)
    (role : Role) (content : String) (now : Nat) (s : ChatSession)
    (h : getChatSession store sessionId = some s) :
    getChatSession (addMessage store sessionId role content now) sessionId =
      some { s with
             messages := s.messages ++ [⟨role, content, now⟩]
             updatedAt := now } := by
  rw [addMessage_eq store sessionId role content now s h,
    getChatSession_writeFile_self]

theorem getChatSession_updateEvaluation_self (store : Store)
    (sessionId : String) (evaluation : Option Evaluation) (s : ChatSession)
    (h : getChatSession store sessionId = some s) :
    getChatSession (updateEvaluation store sessionId evaluation) sessionId =
      some { s with evaluation := evaluation } := by
  rw [updateEvaluation_eq store sessionId evaluation s h,
    getChatSession_writeFile_self]

/-- Trace of the handler on the path where the session exists, the input
is well-formed and the reply generation succeeds: everything after the
assistant append as one expression. -/
theorem postMessage_success (store : Store) (sessionId message : String)
    (genFn : List (Role × String) → Except String String) (t1 t2 : Nat)
    (evalFn : String → Except String Evaluation) (evalWriteOk : Bool)
    (tE : Nat) (s0 : ChatSession)
    (h0 : getChatSession store sessionId = some s0)
    (hsid : sessionId ≠ "") (hmsg : message ≠ "") (response : String)
    (hg : genFn (List.map projectMsg
        (s0.messages ++ [⟨Role.user, message, t1⟩])) = .ok response) :
    postMessage store sessionId message genFn t1 t2 evalFn evalWriteOk tE =
      (let s1 : ChatSession :=
        { s0 with
          messages := s0.messages ++ [⟨Role.user, message, t1⟩]
          updatedAt := t1 }
       let s2 : ChatSession :=
        { s1 with
          messages := s1.messages ++ [⟨Role.assistant, response, t2⟩]
          updatedAt := t2 }
       let store2 :=
        writeFile (writeFile store (getSessionPath sessionId) s1)
          (getSessionPath sessionId) s2
       if 5 ≤ s2.messages.length ∧ s2.messages.length % 5 = 0 then
         match evalFn (conversationText s2.messages) with
         | .error _ => ⟨store2, ChatResult.ok response, true⟩
         | .ok evaluation =>
           if evalWriteOk then
             ⟨updateEvaluation store2 sessionId
                 (some { evaluation with evaluatedAt := tE }),
               ChatResult.ok response, true⟩
           else ⟨store2, ChatResult.ok response, true⟩
       else ⟨store2, ChatResult.ok response, false⟩) := by
  have hbs : (sessionId == "") = false := beq_eq_false_iff_ne.mpr hsid
  have hbm : (message == "") = false := beq_eq_false_iff_ne.mpr hmsg
  have e1 := addMessage_eq store sessionId Role.user message t1 s0 h0
  have g1 := getChatSession_writeFile_self store sessionId
    { s0 with
      messages := s0.messages ++ [⟨Role.user, message, t1⟩]
      updatedAt := t1 }
  simp only [postMessage, hbs, hbm, Bool.or_self, Bool.false_eq_true,
    if_false, h0, e1, g1, hg]
  have e2 := addMessage_eq _ sessionId Role.assistant response t2 _ g1
  simp only [e2, getChatSession_writeFile_self]

/-- Claim C1: in the chat message handler, an evaluation is attempted if
and only if the session's message count, re-read after the assistant
reply is appended (the original count plus the two appended messages),
is a positive multiple of 5; for every count in 1-4, 6-9, 11-14, etc. no
evaluation call is made. -/
theorem evaluation_attempted_iff_positive_multiple_of_five
    (store : Store) (sessionId message : String)
    (genFn : List (Role × String) → Except String String) (t1 t2 : Nat)
    (evalFn : String → Except String Evaluation) (evalWriteOk : Bool)
    (tE : Nat) (s0 : ChatSession)
    (h0 : getChatSession store sessionId = some s0)
    (hsid : sessionId ≠ "") (hmsg : message ≠ "") (response : String)
    (hg : genFn (List.map projectMsg
        (s0.messages ++ [⟨Role.user, message, t1⟩])) = .ok response) :
    (postMessage store sessionId message genFn t1 t2 evalFn evalWriteOk
        tE).evalAttempted = true ↔
      (0 < s0.messages.length + 2 ∧ (s0.messages.length + 2) % 5 = 0) := by
  rw [postMessage_success store sessionId message genFn t1 t2 evalFn
    evalWriteOk tE s0 h0 hsid hmsg response hg]
  simp only []
  split
  · rename_i hc
    simp only [List.length_append, List.length_cons, List.length_nil] at hc
    split
    · simp only [true_iff]
      omega
    · split <;>
      · simp only [true_iff]
        omega
  · rename_i hc
    simp only [List.length_append, List.length_cons, List.length_nil] at hc
    simp only [Bool.false_eq_true, false_iff]
    omega

/-- Claim C2: for every request carrying a non-empty sessionId of an
existing session and a non-empty message, a run in which the AI reply
succeeds appends exactly two messages to that session — first the user
message with the request text, then the assistant message with the
generated reply, in that order — leaving every other message of the
session unchanged, and returns the success response. -/
theorem successful_message_appends_user_then_assistant
    (store : Store) (sessionId message : String)
    (genFn : List (Role × String) → Except String String) (t1 t2 : Nat)
    (evalFn : String → Except String Evaluation) (evalWriteOk : Bool)
    (tE : Nat) (s0 : ChatSession)
    (h0 : getChatSession store sessionId = some s0)
    (hsid : sessionId ≠ "") (hmsg : message ≠ "") (response : String)
    (hg : genFn (List.map projectMsg
        (s0.messages ++ [⟨Role.user, message, t1⟩])) = .ok response) :
    (let out := postMessage store sessionId message genFn t1 t2 evalFn
      evalWriteOk tE
     out.result = ChatResult.ok response ∧
      Option.map (fun s => s.messages) (getChatSession out.store sessionId) =
        some (s0.messages ++
          [⟨Role.user, message, t1⟩, ⟨Role.assistant, response, t2⟩])) := by
  rw [postMessage_success store sessionId message genFn t1 t2 evalFn
    evalWriteOk tE s0 h0 hsid hmsg response hg]
  simp only []
  split
  · split
    · refine ⟨rfl, ?_⟩
      rw [getChatSession_writeFile_self]
      simp [List.append_assoc]
    · split
      · refine ⟨rfl, ?_⟩
        rw [getChatSession_updateEvaluation_self _ _ _ _
          (getChatSession_writeFile_self _ _ _)]
        simp [List.append_assoc]
      · refine ⟨rfl, ?_⟩
        rw [getChatSession_writeFile_self]
        simp [List.append_assoc]
  · refine ⟨rfl, ?_⟩
    rw [getChatSession_writeFile_self]
    simp [List.append_assoc]

/-- Claim C3: if reply generation fails, the handler returns the 500
error and appends nothing further: the session then ends in the user's
message (an unanswered user turn), no assistant message is appended, and
no evaluation is attempted. -/
theorem generation_failure_gives_500_and_unanswered_user_turn
    (store : Store) (sessionId message : String)
    (genFn : List (Role × String) → Except String String) (t1 t2 : Nat)
    (evalFn : String → Except String Evaluation) (evalWriteOk : Bool)
    (tE : Nat) (s0 : ChatSession)
    (h0 : getChatSession store sessionId = some s0)
    (hsid : sessionId ≠ "") (hmsg : message ≠ "") (err : String)
    (hg : genFn (List.map projectMsg
        (s0.messages ++ [⟨Role.user, message, t1⟩])) = .error err) :
    (let out := postMessage store sessionId message genFn t1 t2 evalFn
      evalWriteOk tE
     out.result = ChatResult.serverError ∧ out.evalAttempted = false ∧
      Option.map (fun s => s.messages) (getChatSession out.store sessionId) =
        some (s0.messages ++ [⟨Role.user, message, t1⟩])) := by
  have hbs : (sessionId == "") = false := beq_eq_false_iff_ne.mpr hsid
  have hbm : (message == "") = false := beq_eq_false_iff_ne.mpr hmsg
  have e1 := addMessage_eq store sessionId Role.user message t1 s0 h0
  have g1 := getChatSession_writeFile_self store sessionId
    { s0 with
      messages := s0.messages ++ [⟨Role.user, message, t1⟩]
      updatedAt := t1 }
  simp only [postMessage, hbs, hbm, Bool.or_self, Bool.false_eq_true,
    if_false, h0, e1, g1, hg]
  refine ⟨?_, ?_, ?_⟩ <;> trivial

/-- Claim C4: a failure of the evaluation step — `evaluateMentalHealth`
failing, or the persist inside `updateEvaluation` throwing — leaves the
store exactly as it was after the assistant reply was appended, and the
handler still returns the success response with the assistant reply
text. -/
theorem evaluation_failure_preserves_messages_and_success
    (store : Store) (sessionId message : String)
    (genFn : List (Role × String) → Except String String) (t1 t2 : Nat)
    (evalFn : String → Except String Evaluation) (evalWriteOk : Bool)
    (tE : Nat) (s0 : ChatSession)
    (h0 : getChatSession store sessionId = some s0)
    (hsid : sessionId ≠ "") (hmsg : message ≠ "") (response err : String)
    (hg : genFn (List.map projectMsg
        (s0.messages ++ [⟨Role.user, message, t1⟩])) = .ok response)
    (hfail :
      evalFn (conversationText
          ((s0.messages ++ [⟨Role.user, message, t1⟩]) ++
            [⟨Role.assistant, response, t2⟩])) = .error err ∨
        evalWriteOk = false) :
    (let out := postMessage store sessionId message genFn t1 t2 evalFn
      evalWriteOk tE
     out.result = ChatResult.ok response ∧
      out.store =
        addMessage (addMessage store sessionId Role.user message t1)
          sessionId Role.assistant response t2) := by
  have e1 := addMessage_eq store sessionId Role.user message t1 s0 h0
  have g1 := getChatSession_writeFile_self store sessionId
    { s0 with
      messages := s0.messages ++ [⟨Role.user, message, t1⟩]
      updatedAt := t1 }
  have e2 := addMessage_eq _ sessionId Role.assistant response t2 _ g1
  rw [postMessage_success store sessionId message genFn t1 t2 evalFn
    evalWriteOk tE s0 h0 hsid hmsg response hg]
  simp only []
  rw [e1, e2]
  split
  · split
    · refine ⟨?_, ?_⟩ <;> trivial
    · rename_i hok
      rcases hfail with hf | hf
      · rw [hok] at hf
        exact absurd hf (by simp)
      · rw [hf]
        simp only [Bool.false_eq_true, if_false]
        refine ⟨?_, ?_⟩ <;> trivial
  · refine ⟨?_, ?_⟩ <;> trivial

/-! Concrete records used by witnesses and counterexamples. -/

/-- A session record that parses fine. -/
def sampleSession : ChatSession :=
  { id := "session_1_a", messages := [], evaluation := none
    createdAt := 0, updatedAt := 0 }

/-- A store holding just `sampleSession`. -/
def sampleStore : Store :=
  [⟨"session_1_a.json", some sampleSession⟩]

/-- A directory holding one parseable record and one corrupt record. -/
def mixedDir : Store :=
  [⟨"session_1_a.json", some sampleSession⟩, ⟨"corrupt.json", none⟩]

theorem parseAll_eq_none_of_corrupt (files : List SFile)
    (h : ∃ f ∈ files, isJsonFile f.name = true ∧ f.content = none) :
    parseAll files = none := by
  induction files with
  | nil => simp at h
  | cons f fs ih =>
    rcases h with ⟨g, hg, hj, hc⟩
    rcases List.mem_cons.mp hg with rfl | hmem
    · simp [parseAll, hj, hc]
    · by_cases hf : isJsonFile f.name = true
      · simp only [parseAll, hf, if_true]
        cases hcon : f.content with
        | none => rfl
        | some s => simp [ih ⟨g, hmem, hj, hc⟩]
      · have hf' : isJsonFile f.name = false := by simpa using hf
        simpa [parseAll, hf'] using ih ⟨g, hmem, hj, hc⟩

/-- Claim C5 (counterexample): on a directory holding one parseable
record and one corrupt record, `getAllSessions` does not return the
parseable session — the whole listing is aborted to `[]`. -/
theorem corrupt_record_aborts_listing_counterexample :
    getAllSessions (some mixedDir) = [] ∧
      sampleSession ∉ getAllSessions (some mixedDir) := by
  have h : getAllSessions (some mixedDir) = [] := by decide
  exact ⟨h, by simp [h]⟩

/-- Claim C5 (amended): a parse failure of any individual `.json` record
aborts the whole listing — `getAllSessions` then returns the empty
sequence, exactly as it does on a directory read failure — so parseable
sessions are not returned whenever any record is corrupt. -/
theorem corrupt_record_empties_listing (files : List SFile)
    (h : ∃ f ∈ files, isJsonFile f.name = true ∧ f.content = none) :
    getAllSessions (some files) = [] := by
  simp [getAllSessions, parseAll_eq_none_of_corrupt files h]

theorem corrupt_record_empties_listing_witness :
    getAllSessions (some mixedDir) = [] :=
  corrupt_record_empties_listing mixedDir
    ⟨⟨"corrupt.json", none⟩, by decide, by decide, rfl⟩

/-- Claim C6 (counterexample): a provider response with no JSON-shaped
substring and a provider transport failure surface to the caller as the
very same error value `Failed to evaluate conversation` — the
`Invalid evaluation format` distinction exists only inside the `try`
body and never reaches the caller. -/
theorem evaluation_error_kinds_collapse_counterexample :
    evaluateMentalHealth (Except.ok "plain text, no json at all")
        (fun _ => Except.error "SyntaxError") =
      Except.error "Failed to evaluate conversation" ∧
    evaluateMentalHealth (Except.error "network down")
        (fun _ => Except.error "SyntaxError") =
      Except.error "Failed to evaluate conversation" ∧
    evalTryBody (Except.ok "plain text, no json at all")
        (fun _ => Except.error "SyntaxError") =
      Except.error "Invalid evaluation format" := by
  refine ⟨rfl, rfl, rfl⟩

/-- Claim C6 (amended): inside the `try` body the distinct
`Invalid evaluation format` error is raised exactly when the provider's
response text contains no JSON-shaped substring, but the surrounding
`catch` re-wraps every failure — format, transport and parse alike —
into the single generic `Failed to evaluate conversation` error, so
callers cannot tell the failure kinds apart. -/
theorem evaluation_format_error_is_rewrapped
    (providerResult : Except String String)
    (parse : String → Except String Evaluation)
    (hp : ∀ j e, parse j = Except.error e → e ≠ "Invalid evaluation format") :
    (∀ e, evaluateMentalHealth providerResult parse = Except.error e →
      e = "Failed to evaluate conversation") ∧
    (∀ text, providerResult = Except.ok text →
      (evalTryBody providerResult parse =
          Except.error "Invalid evaluation format" ↔
        extractJson text = none)) := by
  constructor
  · intro e he
    unfold evaluateMentalHealth at he
    cases h : evalTryBody providerResult parse with
    | ok v => rw [h] at he; cases he
    | error e' => rw [h] at he; injection he with he'; exact he'.symm
  · rintro text rfl
    unfold evalTryBody
    cases hx : extractJson text with
    | none => simp [hx]
    | some j =>
      simp only [hx]
      constructor
      · intro hparse
        exact absurd rfl (hp j "Invalid evaluation format" hparse)
      · intro hcontra
        cases hcontra

/-- Claim C7: for a session identifier with no stored record,
`addMessage` and `updateEvaluation` are silent no-ops — no error, no
file created, the whole store unchanged — while for an existing session
they load the record, modify it (append / replace evaluation) and
persist it. -/
theorem missing_session_append_and_set_are_noops
    (store : Store) (sessionId : String) (role : Role) (content : String)
    (evaluation : Option Evaluation) (now : Nat) :
    (findFile store (getSessionPath sessionId) = none →
      addMessage store sessionId role content now = store ∧
        updateEvaluation store sessionId evaluation = store) ∧
    (∀ s, getChatSession store sessionId = some s →
      addMessage store sessionId role content now =
        writeFile store (getSessionPath sessionId)
          { s with
            messages := s.messages ++ [⟨role, content, now⟩]
            updatedAt := now } ∧
      updateEvaluation store sessionId evaluation =
        writeFile store (getSessionPath sessionId)
          { s with evaluation := evaluation }) := by
  constructor
  · intro h
    have hg : getChatSession store sessionId = none := by
      simp [getChatSession, h]
    exact ⟨by simp [addMessage, hg], by simp [updateEvaluation, hg]⟩
  · intro s hs
    exact ⟨addMessage_eq _ _ _ _ _ _ hs, updateEvaluation_eq _ _ _ _ hs⟩

theorem missing_session_append_and_set_are_noops_witness :
    addMessage [] "ghost" Role.user "hi" 0 = ([] : Store) ∧
      updateEvaluation [] "ghost" none = ([] : Store) :=
  (missing_session_append_and_set_are_noops [] "ghost" Role.user "hi"
    none 0).1 rfl

theorem findFile_filter_self (store : Store) (name : String) :
    findFile (List.filter (fun f => f.name != name) store) name = none := by
  induction store with
  | nil => rfl
  | cons f fs ih =>
    by_cases h : (f.name == name) = true
    · simp only [List.filter_cons, bne, h, Bool.not_true,
        Bool.false_eq_true, if_false]
      exact ih
    · have h' : (f.name == name) = false := by simpa using h
      simp only [List.filter_cons, bne, h', Bool.not_false, if_true,
        findFile, List.find?_cons, h']
      exact ih

/-- Claim C8: `deleteSession` returns `true` exactly when a record for
the id existed (which it removes), and `false` — not an error — when no
record existed, leaving the store untouched; afterwards both
`getChatSession` and the admin detail fetch on that id report
not-found. -/
theorem delete_returns_existence_and_get_reports_not_found
    (store : Store) (sessionId : String) :
    ((deleteSession store sessionId).2 = true ↔
      (findFile store (getSessionPath sessionId)).isSome = true) ∧
    ((findFile store (getSessionPath sessionId)).isSome = false →
      deleteSession store sessionId = (store, false)) ∧
    getChatSession (deleteSession store sessionId).1 sessionId = none ∧
    adminGetSession (deleteSession store sessionId).1 sessionId = none := by
  by_cases h : (findFile store (getSessionPath sessionId)).isSome = true
  · have hd : deleteSession store sessionId =
        (List.filter (fun f => f.name != getSessionPath sessionId) store,
          true) := by
      simp [deleteSession, h]
    refine ⟨by simp [hd, h], ?_, ?_, ?_⟩
    · intro hfalse
      rw [h] at hfalse
      cases hfalse
    · rw [hd]
      simp [getChatSession, findFile_filter_self]
    · rw [hd]
      simp [adminGetSession, getChatSession, findFile_filter_self]
  · have h' : (findFile store (getSessionPath sessionId)).isSome = false := by
      simpa using h
    have hd : deleteSession store sessionId = (store, false) := by
      simp [deleteSession, h']
    have hnone : findFile store (getSessionPath sessionId) = none := by
      cases hf : findFile store (getSessionPath sessionId) with
      | none => rfl
      | some f => rw [hf] at h'; cases h'
    refine ⟨by simp [hd, h'], fun _ => hd, ?_, ?_⟩
    · rw [hd]
      simp [getChatSession, hnone]
    · rw [hd]
      simp [adminGetSession, getChatSession, hnone]

theorem delete_returns_existence_and_get_reports_not_found_witness :
    deleteSession ([] : Store) "ghost" = (([] : Store), false) :=
  (delete_returns_existence_and_get_reports_not_found [] "ghost").2.1 rfl

/-- Claim C10: for an existing session, `updateEvaluation` changes only
the evaluation field — id, messages, createdAt and in particular the
`updatedAt` timestamp are unchanged — whereas `addMessage` does set
`updatedAt` to the current time, so storing an evaluation does not move
the session in the most-recently-updated ordering of `getAllSessions`. -/
theorem set_evaluation_changes_only_evaluation_field
    (store : Store) (sessionId : String) (evaluation : Option Evaluation)
    (role : Role) (content : String) (now : Nat) (s : ChatSession)
    (h : getChatSession store sessionId = some s) :
    getChatSession (updateEvaluation store sessionId evaluation) sessionId =
      some { id := s.id, messages := s.messages, evaluation := evaluation
             createdAt := s.createdAt, updatedAt := s.updatedAt } ∧
    Option.map (fun t => t.updatedAt)
        (getChatSession (addMessage store sessionId role content now)
          sessionId) = some now := by
  constructor
  · rw [getChatSession_updateEvaluation_self store sessionId evaluation s h]
  · rw [getChatSession_addMessage_self store sessionId role content now s h]
    rfl

theorem set_evaluation_changes_only_evaluation_field_witness :
    getChatSession (updateEvaluation sampleStore "session_1_a" none)
        "session_1_a" =
      some { id := sampleSession.id, messages := sampleSession.messages
             evaluation := none, createdAt := sampleSession.createdAt
             updatedAt := sampleSession.updatedAt } ∧
    Option.map (fun t => t.updatedAt)
        (getChatSession (addMessage sampleStore "session_1_a" Role.user
          "hi" 7) "session_1_a") = some 7 :=
  set_evaluation_changes_only_evaluation_field sampleStore "session_1_a"
    none Role.user "hi" 7 sampleSession rfl

theorem evaluation_attempted_iff_positive_multiple_of_five_witness :
    (postMessage sampleStore "session_1_a" "Hello"
        (fun _ => Except.ok "Hi") 1 2 (fun _ => Except.error "no") true
        3).evalAttempted = true ↔
      (0 < sampleSession.messages.length + 2 ∧
        (sampleSession.messages.length + 2) % 5 = 0) :=
  evaluation_attempted_iff_positive_multiple_of_five sampleStore
    "session_1_a" "Hello" (fun _ => Except.ok "Hi") 1 2
    (fun _ => Except.error "no") true 3 sampleSession rfl (by decide)
    (by decide) "Hi" rfl

theorem successful_message_appends_user_then_assistant_witness :
    (let out := postMessage sampleStore "session_1_a" "Hello"
      (fun _ => Except.ok "Hi") 1 2 (fun _ => Except.error "no") true 3
     out.result = ChatResult.ok "Hi" ∧
      Option.map (fun s => s.messages) (getChatSession out.store
          "session_1_a") =
        some (sampleSession.messages ++
          [⟨Role.user, "Hello", 1⟩, ⟨Role.assistant, "Hi", 2⟩])) :=
  successful_message_appends_user_then_assistant sampleStore "session_1_a"
    "Hello" (fun _ => Except.ok "Hi") 1 2 (fun _ => Except.error "no")
    true 3 sampleSession rfl (by decide) (by decide) "Hi" rfl

theorem generation_failure_gives_500_and_unanswered_user_turn_witness :
    (let out := postMessage sampleStore "session_1_a" "Hello"
      (fun _ => Except.error "api down") 1 2 (fun _ => Except.error "no")
      true 3
     out.result = ChatResult.serverError ∧ out.evalAttempted = false ∧
      Option.map (fun s => s.messages) (getChatSession out.store
          "session_1_a") =
        some (sampleSession.messages ++ [⟨Role.user, "Hello", 1⟩])) :=
  generation_failure_gives_500_and_unanswered_user_turn sampleStore
    "session_1_a" "Hello" (fun _ => Except.error "api down") 1 2
    (fun _ => Except.error "no") true 3 sampleSession rfl (by decide)
    (by decide) "api down" rfl

theorem evaluation_failure_preserves_messages_and_success_witness :
    (let out := postMessage sampleStore "session_1_a" "Hello"
      (fun _ => Except.ok "Hi") 1 2 (fun _ => Except.error "no") true 3
     out.result = ChatResult.ok "Hi" ∧
      out.store =
        addMessage (addMessage sampleStore "session_1_a" Role.user
          "Hello" 1) "session_1_a" Role.assistant "Hi" 2) :=
  evaluation_failure_preserves_messages_and_success sampleStore
    "session_1_a" "Hello" (fun _ => Except.ok "Hi") 1 2
    (fun _ => Except.error "no") true 3 sampleSession rfl (by decide)
    (by decide) "Hi" "no" rfl (Or.inl rfl)

/-! Decimal-string reasoning for the session-id template. -/

/-- Numeric value of a decimal digit character. -/
def decDigitVal (c : Char) : Nat :=
  if c = '0' then 0 else if c = '1' then 1 else if c = '2' then 2
  else if c = '3' then 3 else if c = '4' then 4 else if c = '5' then 5
  else if c = '6' then 6 else if c = '7' then 7 else if c = '8' then 8
  else 9

/-- Numeric value of a decimal digit list, most significant first. -/
def decVal (cs : List Char) : Nat :=
  List.foldl (fun a c => 10 * a + decDigitVal c) 0 cs

theorem decChar_ne_underscore (d : Nat) : decChar d ≠ '_' := by
  unfold decChar
  repeat' split
  all_goals decide

theorem natToDec_no_underscore (n : Nat) :
    ∀ c ∈ natToDec n, c ≠ '_' := by
  induction n using Nat.strong_induction_on with
  | _ n ih =>
    rw [natToDec]
    split
    · intro c hc
      simp only [List.mem_singleton] at hc
      subst hc
      exact decChar_ne_underscore n
    · intro c hc
      rcases List.mem_append.mp hc with h1 | h2
      · exact ih (n / 10) (Nat.div_lt_self (by omega) (by omega)) c h1
      · simp only [List.mem_singleton] at h2
        subst h2
        exact decChar_ne_underscore (n % 10)

theorem decDigitVal_decChar (d : Nat) (h : d < 10) :
    decDigitVal (decChar d) = d := by
  interval_cases d <;> decide

theorem decVal_append_singleton (l : List Char) (c : Char) :
    decVal (l ++ [c]) = 10 * decVal l + decDigitVal c := by
  simp [decVal, List.foldl_append]

theorem decVal_natToDec (n : Nat) : decVal (natToDec n) = n := by
  induction n using Nat.strong_induction_on with
  | _ n ih =>
    rw [natToDec]
    split
    · rename_i h
      simpa [decVal] using decDigitVal_decChar n h
    · rename_i h
      rw [decVal_append_singleton,
        ih (n / 10) (Nat.div_lt_self (by omega) (by omega)),
        decDigitVal_decChar (n % 10) (by omega)]
      omega

theorem natToDec_inj (a b : Nat) (h : natToDec a = natToDec b) : a = b := by
  have := congrArg decVal h
  rwa [decVal_natToDec, decVal_natToDec] at this

theorem append_cons_cancel {α : Type} {c : α} {l1 l2 t1 t2 : List α}
    (h1 : c ∉ l1) (h2 : c ∉ l2) (h : l1 ++ c :: t1 = l2 ++ c :: t2) :
    l1 = l2 ∧ t1 = t2 := by
  induction l1 generalizing l2 with
  | nil =>
    cases l2 with
    | nil => simpa using h
    | cons b l2' =>
      simp only [List.nil_append, List.cons_append, List.cons.injEq] at h
      exact absurd (h.1 ▸ List.mem_cons_self b l2') h2
  | cons a l1' ih =>
    cases l2 with
    | nil =>
      simp only [List.cons_append, List.nil_append, List.cons.injEq] at h
      exact absurd (h.1 ▸ List.mem_cons_self a l1') h1
    | cons b l2' =>
      simp only [List.cons_append, List.cons.injEq] at h
      have hrec := ih (fun hm => h1 (List.mem_cons_of_mem a hm))
        (fun hm => h2 (h.1 ▸ List.mem_cons_of_mem b hm)) h.2
      exact ⟨by rw [h.1, hrec.1], hrec.2⟩

theorem mkSessionId_inj (n1 n2 : Nat) (r1 r2 : String)
    (h : mkSessionId n1 r1 = mkSessionId n2 r2) : n1 = n2 ∧ r1 = r2 := by
  have hd := congrArg String.data h
  simp only [mkSessionId, String.data_append] at hd
  have hd' : "session_".data ++ (natToDec n1 ++ '_' :: r1.data) =
      "session_".data ++ (natToDec n2 ++ '_' :: r2.data) := by
    simpa [List.append_assoc] using hd
  have hc := List.append_cancel_left hd'
  have hsplit := append_cons_cancel
    (fun hm => natToDec_no_underscore n1 '_' hm rfl)
    (fun hm => natToDec_no_underscore n2 '_' hm rfl) hc
  exact ⟨natToDec_inj n1 n2 hsplit.1, String.ext hsplit.2⟩

/-- Claim C9 (counterexample): identifier allocation is not collision
free for all outcomes of the timestamp and random components — two
consecutive creations that draw the same `Date.now()` value and the
same random string return the very same identifier. -/
theorem create_session_id_collision_counterexample :
    (createChatSession [] 5 "abc").2 =
      (createChatSession (createChatSession [] 5 "abc").1 5 "abc").2 := rfl

/-- Claim C9 (amended): the identifier returned by `createChatSession`
determines the timestamp and random components it was built from: two
creations return the same identifier only when both their `Date.now()`
value and their random string coincide, and whenever either component
differs the identifiers differ.  Uniqueness therefore holds exactly up
to the randomness, not for all outcomes. -/
theorem create_session_id_determines_components
    (s1 s2 : Store) (n1 n2 : Nat) (r1 r2 : String)
    (h : (createChatSession s1 n1 r1).2 = (createChatSession s2 n2 r2).2) :
    n1 = n2 ∧ r1 = r2 :=
  mkSessionId_inj n1 n2 r1 r2 h

theorem create_session_id_determines_components_witness :
    (5 : Nat) = 5 ∧ "abc" = "abc" :=
  create_session_id_determines_components [] [] 5 5 "abc" "abc" rfl

theorem evaluation_format_error_is_rewrapped_witness :
    evalTryBody (Except.ok "plain text") (fun _ => Except.error "boom") =
        Except.error "Invalid evaluation format" ↔
      extractJson "plain text" = none :=
  (evaluation_format_error_is_rewrapped (Except.ok "plain text")
    (fun _ => Except.error "boom")
    (fun _ e he => by
      injection he with he'
      rw [← he']
      decide)).2 "plain text" rfl
